import Mathlib

/-!
Verification of the multi-agent collaboration orchestrator of the
PROJECT_RESEARCH repository (`backend/agents/multi_agent.py`,
`backend/domain/agent_domain.py`, `ai-service/multi-agent/agent_coordinator.py`).

Modelling conventions:
* Python dicts keyed by strings are association lists with in-place
  overwrite on assignment (`dictInsert`) and first-match lookup.
* Python floats are modelled as exact rationals (`ℚ`); every arithmetic
  expression in the source is a short combination of `+ - * /` on small
  values, which the rational model reproduces exactly.
* Python exceptions are modelled with `Except`: `ValueError`s raised by the
  coordinator and `ZeroDivisionError`s arising in the scoring helpers become
  constructors of `CollabError`; an exception raised by an agent's
  `process_query` is an `Except.error` in its `QueryOutcome`.
* `await agent.process_query(...)` is modelled as a pure call of the agent's
  behaviour function; each call carries a modelled wall-clock `duration`
  (seconds).  Sequential awaits add durations; `asyncio.gather` of a round
  completes after the maximum duration of its calls, and
  `asyncio.wait_for(gather(...), timeout)` times out iff that maximum
  exceeds the timeout.
* `datetime.utcnow()` timestamps and the opaque `metadata` bag carried by
  `AgentResponse` play no role in any control flow and are not modelled.
* Every query call issued to an agent is recorded in a log
  (`List QueryCall`), so "zero agents are contacted" style properties are
  statements about the log.
-/

set_option maxRecDepth 100000

namespace ProjectResearch

/-- Assignment `d[k] = v` on a Python dict modelled as an association list:
overwrite in place if the key is present, append otherwise (insertion order
is preserved, as for Python dicts). -/
def dictInsert {α : Type} : List (String × α) → String → α → List (String × α)
  | [], k, v => [(k, v)]
  | (k', v') :: rest, k, v =>
    if k' = k then (k, v) :: rest else (k', v') :: dictInsert rest k v

/-- Lookup `d[k]` / `k in d` on a Python dict modelled as an association list. -/
def dictLookup {α : Type} : List (String × α) → String → Option α
  | [], _ => none
  | (k', v') :: rest, k => if k' = k then some v' else dictLookup rest k

/-- Deletion `del d[k]` on a Python dict modelled as an association list. -/
def dictErase {α : Type} : List (String × α) → String → List (String × α)
  | [], _ => []
  | (k', v') :: rest, k => if k' = k then rest else (k', v') :: dictErase rest k

/-- Python slice `xs[-n:]`: the last at most `n` elements, in order. -/
def lastN {α : Type} (n : Nat) (xs : List α) : List α :=
  xs.drop (xs.length - n)

/-- CollaborationMode enum of `multi_agent.py` (lines 13-18). -/
inductive CollaborationMode where
  | sequential
  | parallel
  | debate
  | consensus
deriving Repr, DecidableEq

/-- String value of a CollaborationMode (`task.mode.value`). -/
def CollaborationMode.value : CollaborationMode → String
  | .sequential => "sequential"
  | .parallel => "parallel"
  | .debate => "debate"
  | .consensus => "consensus"

/-- CollaborationTask dataclass (`multi_agent.py` lines 21-30). -/
structure CollaborationTask where
  task_id : String
  task_type : String
  query : String
  agents : List String
  mode : CollaborationMode
  max_iterations : Nat := 3
  timeout : Nat := 300
deriving Repr, DecidableEq

/-- AgentResponse dataclass (`multi_agent.py` lines 33-40).  The opaque
`metadata` bag and the `datetime.utcnow()` timestamp are not modelled: no
control flow or claim depends on them. -/
structure AgentResponse where
  agent_id : String
  content : String
  confidence : ℚ
deriving Repr, DecidableEq

/-- Value returned by a successful `agent.process_query` call: a dict with a
required `content` key and an optional `confidence_score` key (the
coordinator defaults a missing score to 0.8). -/
structure QueryResp where
  content : String
  confidence_score : Option ℚ := none
deriving Repr, DecidableEq

/-- Outcome of one `await agent.process_query(...)`: the modelled wall-clock
duration of the call, and either the returned dict or a raised exception
(its message). -/
structure QueryOutcome where
  duration : Nat := 0
  result : Except String QueryResp

/-- Collaboration context dict passed to `process_query`.  The Python source
builds a heterogeneous `collaboration_context` dict whose keys vary by mode
and round; the optional fields below cover every key that appears in
`multi_agent.py`. -/
structure CollabContext where
  mode : String
  iteration : Option Nat := none
  position : Option Nat := none
  total_agents : Option Nat := none
  goal : Option String := none
  previous_responses : List AgentResponse := []
  other_responses : List String := []
  team_responses : List String := []
  current_consensus_score : Option ℚ := none

/-- Behaviour of one registered `PaperAgent`: what its `process_query`
does, as a function of the prompt and the collaboration context. -/
def Agent : Type := String → CollabContext → QueryOutcome

/-- Errors that terminate `start_collaboration`, mirroring the exceptions the
source can raise: the `ValueError`s of `start_collaboration` and
`_parallel_collaboration`, a `KeyError` from `self.active_agents[agent_id]`,
a `ZeroDivisionError` from the scoring helpers, and an exception propagated
out of an agent's `process_query`. -/
inductive CollabError where
  | agentNotFound (missing : List String)
  | collaborationTimeout (timeout : Nat)
  | keyError (agent_id : String)
  | zeroDivision
  | agentError (msg : String)
deriving Repr, DecidableEq

/-- Result dict returned by the four collaboration protocols.  The keys that
only some modes emit (`debate_rounds`, `key_agreements`, `key_disagreements`,
`consensus_achieved`) are `Option` fields, `none` when absent. -/
structure CollabResult where
  task_id : String
  mode : String
  synthesized_response : String
  individual_responses : List (String × String)
  collaboration_quality : ℚ
  consensus_score : ℚ
  total_iterations : Nat
  participating_agents : List String
  debate_rounds : Option Nat := none
  key_agreements : Option (List String) := none
  key_disagreements : Option (List String) := none
  consensus_achieved : Option Bool := none
deriving Repr, DecidableEq

/-- One issued `process_query` call, as recorded in the query log. -/
structure QueryCall where
  agent_id : String
  prompt : String
  duration : Nat
deriving Repr, DecidableEq

/-- Wall-clock duration of a list of strictly serialized calls. -/
def totalDuration (log : List QueryCall) : Nat :=
  (log.map (·.duration)).sum

/-- Mean character length of the contents of a list of responses, as the
Python float `sum(lengths) / len(lengths)`. -/
def meanContentLength (rs : List AgentResponse) : ℚ :=
  ((rs.map (fun r => (r.content.length : ℚ))).sum) / (rs.length : ℚ)

/-- Helper `_calculate_collaboration_quality` (`multi_agent.py` lines
468-478): 0 for an empty list, otherwise
`min(avg_confidence * 0.6 + response_diversity * 0.4, 1.0)` where diversity
counts distinct 100-character content prefixes. -/
def calculateCollaborationQuality (responses : List AgentResponse) : ℚ :=
  if responses = [] then 0
  else
    let avg_confidence : ℚ :=
      (responses.map (·.confidence)).sum / (responses.length : ℚ)
    let response_diversity : ℚ :=
      (((responses.map (fun r => r.content.take 100)).dedup).length : ℚ) /
        (responses.length : ℚ)
    min (avg_confidence * 0.6 + response_diversity * 0.4) 1

/-- Helper `_calculate_consensus_score` (`multi_agent.py` lines 480-493):
1.0 for fewer than two responses, otherwise
`min(max(0, 1 - variance / avg_length²), 1)` over the content lengths.
When every content is empty, `avg_length` is 0 and the Python division
raises `ZeroDivisionError`, modelled as `.error .zeroDivision`. -/
def calculateConsensusScore (responses : List AgentResponse) :
    Except CollabError ℚ :=
  if responses.length < 2 then .ok 1
  else
    let avg_length := meanContentLength responses
    if avg_length = 0 then .error .zeroDivision
    else
      let variance : ℚ :=
        ((responses.map
          (fun r => ((r.content.length : ℚ) - avg_length) ^ 2)).sum) /
          (responses.length : ℚ)
      .ok (min (max 0 (1 - variance / avg_length ^ 2)) 1)

/-- Helper `_check_debate_convergence` (`multi_agent.py` lines 495-505):
False if either round is empty, otherwise true iff the relative change of
mean content length is strictly below 0.1.  When the previous round's mean
length is 0 the Python division raises `ZeroDivisionError`. -/
def checkDebateConvergence (current_responses previous_responses : List AgentResponse) :
    Except CollabError Bool :=
  if current_responses = [] ∨ previous_responses = [] then .ok false
  else
    let current_avg := meanContentLength current_responses
    let previous_avg := meanContentLength previous_responses
    if previous_avg = 0 then .error .zeroDivision
    else .ok (decide (|current_avg - previous_avg| / previous_avg < 0.1))

/-- Placeholder `_extract_agreements` (`multi_agent.py` lines 507-514):
returns hardcoded strings regardless of input. -/
def extractAgreements (_ : List AgentResponse) : List String :=
  ["Core methodology approach",
   "Problem definition accuracy",
   "Implementation feasibility"]

/-- Placeholder `_extract_disagreements` (`multi_agent.py` lines 516-523). -/
def extractDisagreements (_ : List AgentResponse) : List String :=
  ["Optimal parameter settings",
   "Performance evaluation metrics",
   "Scalability considerations"]

/-- Placeholder `_extract_common_themes` (`multi_agent.py` lines 525-532). -/
def extractCommonThemes (_ : List AgentResponse) : List String :=
  ["Importance of data quality",
   "Need for proper validation",
   "Consideration of computational resources"]

/-- Rendering of Python's `f"{q:.1%}"` for a rational: percentage with one
decimal digit.  Python formats the IEEE double with round-half-even; the
model rounds half away from zero, which agrees except on exact .05% ties
(no claim depends on this string). -/
def formatPercent (q : ℚ) : String :=
  let m : Nat := (round (q * 1000) : ℤ).toNat
  toString (m / 10) ++ "." ++ toString (m % 10) ++ "%"

/-- Helper `_synthesize_sequential_responses` (`multi_agent.py` lines
377-388). -/
def synthesizeSequentialResponses (responses : List AgentResponse)
    (task : CollaborationTask) : String :=
  let header := "Based on sequential analysis by " ++ toString responses.length ++
    " specialized agents:\n\n"
  let body := (responses.enumFrom 1).foldl
    (fun s p => s ++ "Agent " ++ toString p.1 ++ " Analysis: " ++
      p.2.content.take 200 ++ "...\n\n") header
  body ++ "Integrated Conclusion: " ++
    "The sequential analysis reveals a comprehensive understanding that builds from " ++
    "initial insights to a refined conclusion addressing: " ++ task.query

/-- Helper `_synthesize_parallel_responses` (`multi_agent.py` lines 390-413):
groups responses into high confidence (`> 0.8`) and medium confidence
(`0.6 ≤ c ≤ 0.8`); responses below 0.6 appear in neither group. -/
def synthesizeParallelResponses (responses : List AgentResponse)
    (task : CollaborationTask) : String :=
  let header := "Parallel analysis by " ++ toString responses.length ++
    " specialized agents reveals:\n\n"
  let high_confidence := responses.filter (fun r => 0.8 < r.confidence)
  let medium_confidence :=
    responses.filter (fun r => 0.6 ≤ r.confidence ∧ r.confidence ≤ 0.8)
  let bullet := fun (s : String) (r : AgentResponse) =>
    s ++ "• " ++ r.content.take 150 ++ "...\n"
  let s1 := if high_confidence ≠ [] then
      header ++ "High Confidence Insights:\n" ++
        (high_confidence.foldl bullet "") ++ "\n"
    else header
  let s2 := if medium_confidence ≠ [] then
      s1 ++ "Additional Considerations:\n" ++
        (medium_confidence.foldl bullet "") ++ "\n"
    else s1
  s2 ++ "Unified Conclusion: The parallel analysis provides multiple perspectives that " ++
    "collectively address the query: " ++ task.query

/-- Helper `_synthesize_debate_responses` (`multi_agent.py` lines 415-439).
The round count `len(responses) // len(task.agents)` raises
`ZeroDivisionError` when the task has no agents. -/
def synthesizeDebateResponses (responses : List AgentResponse)
    (task : CollaborationTask) : Except CollabError String :=
  if task.agents.length = 0 then .error .zeroDivision
  else
    let header := "After " ++ toString (responses.length / task.agents.length) ++
      " rounds of debate:\n\n"
    let agreements := extractAgreements responses
    let disagreements := extractDisagreements responses
    let s1 := if agreements ≠ [] then
        header ++ "Points of Agreement:\n" ++
          (agreements.foldl (fun s a => s ++ "• " ++ a ++ "\n") "") ++ "\n"
      else header
    let s2 := if disagreements ≠ [] then
        s1 ++ "Remaining Disagreements:\n" ++
          (disagreements.foldl (fun s a => s ++ "• " ++ a ++ "\n") "") ++ "\n"
      else s1
    .ok (s2 ++ "Balanced Conclusion: Through rigorous debate, the agents have explored " ++
      "multiple facets of: " ++ task.query)

/-- Helper `_synthesize_consensus_responses` (`multi_agent.py` lines
441-466); recomputes the consensus score, so it propagates that helper's
`ZeroDivisionError`. -/
def synthesizeConsensusResponses (responses : List AgentResponse)
    (task : CollaborationTask) : Except CollabError String :=
  match calculateConsensusScore responses with
  | .error e => .error e
  | .ok consensus_score =>
    let header := "Consensus Analysis (Agreement Level: " ++
      formatPercent consensus_score ++ "):\n\n"
    let common_themes := extractCommonThemes responses
    let s1 := if common_themes ≠ [] then
        header ++ "Agreed-Upon Points:\n" ++
          (common_themes.foldl (fun s a => s ++ "• " ++ a ++ "\n") "") ++ "\n"
      else header
    let level := if 0.8 < consensus_score then "strong consensus"
      else if 0.6 < consensus_score then "moderate consensus"
      else "partial consensus"
    .ok (s1 ++ "Consensus Conclusion: The agents have reached " ++ level ++
      " on the key aspects of: " ++ task.query)

/-- Registered agents of the coordinator (the `active_agents` dict), used by
the protocol bodies. -/
def AgentDict : Type := List (String × Agent)

/-- Collaboration context passed to the i-th sequential participant
(`multi_agent.py` lines 108-115): ordinal position, total participant
count, and the last 3 prior responses. -/
def seqContext (task : CollaborationTask) (i : Nat)
    (responses : List AgentResponse) : CollabContext :=
  { mode := "sequential", position := some (i + 1),
    total_agents := some task.agents.length,
    previous_responses := lastN 3 responses }

/-- Loop body of `_sequential_collaboration` (`multi_agent.py` lines
104-130): visit the agents in `participantIds` order, each query seeing the
previous agent's truncated answer appended to the original prompt; an agent
exception propagates immediately (there is no try/except around
`process_query`), discarding the earlier responses. -/
def seqLoop (agents : AgentDict) (task : CollaborationTask) :
    List String → Nat → List AgentResponse → String →
    Except CollabError (List AgentResponse) × List QueryCall
  | [], _, responses, _ => (.ok responses, [])
  | agent_id :: rest, i, responses, current_context =>
    match dictLookup agents agent_id with
    | none => (.error (.keyError agent_id), [])
    | some ag =>
      let out := ag current_context (seqContext task i responses)
      let call : QueryCall :=
        ⟨agent_id, current_context, out.duration⟩
      match out.result with
      | .error msg => (.error (.agentError msg), [call])
      | .ok resp =>
        let r : AgentResponse :=
          ⟨agent_id, resp.content, resp.confidence_score.getD 0.8⟩
        let next_context := task.query ++ "\n\nPrevious agent (" ++ agent_id ++
          ") responded: " ++ resp.content.take 200 ++ "..."
        let (res, log) :=
          seqLoop agents task rest (i + 1) (responses ++ [r]) next_context
        (res, call :: log)

/-- Protocol `_sequential_collaboration` (`multi_agent.py` lines 99-144). -/
def sequentialCollaboration (agents : AgentDict) (task : CollaborationTask) :
    Except CollabError CollabResult × List QueryCall :=
  match seqLoop agents task task.agents 0 [] task.query with
  | (.error e, log) => (.error e, log)
  | (.ok responses, log) =>
    match calculateConsensusScore responses with
    | .error e => (.error e, log)
    | .ok cscore =>
      (.ok { task_id := task.task_id
             mode := task.mode.value
             synthesized_response := synthesizeSequentialResponses responses task
             individual_responses :=
               responses.foldl (fun d r => dictInsert d r.agent_id r.content) []
             collaboration_quality := calculateCollaborationQuality responses
             consensus_score := cscore
             total_iterations := 1
             participating_agents := task.agents }, log)

/-- Agent-resolution loop of `_parallel_collaboration` (`multi_agent.py`
lines 149-158): `self.active_agents[agent_id]` for each participant; a
`KeyError` fires before any coroutine is awaited, so no query runs. -/
def resolveAgents (agents : AgentDict) :
    List String → Except CollabError (List (String × Agent))
  | [] => .ok []
  | agent_id :: rest =>
    match dictLookup agents agent_id with
    | none => .error (.keyError agent_id)
    | some ag =>
      match resolveAgents agents rest with
      | .error e => .error e
      | .ok pairs => .ok ((agent_id, ag) :: pairs)

/-- Completion time of `asyncio.gather` over one round of concurrent calls:
the maximum duration. -/
def maxDuration (outs : List QueryOutcome) : Nat :=
  (outs.map (·.duration)).foldr max 0

/-- Collaboration context of a parallel fan-out (`multi_agent.py` lines
152-157), identical for every participant. -/
def parallelContext (task : CollaborationTask) : CollabContext :=
  { mode := "parallel", total_agents := some task.agents.length }

/-- Fan-out of `_parallel_collaboration`: the outcome of every
participant's concurrent `process_query` call, keyed by agent id. -/
def parallelOuts (pairs : List (String × Agent)) (task : CollaborationTask) :
    List (String × QueryOutcome) :=
  pairs.map (fun p => (p.1, p.2 task.query (parallelContext task)))

/-- Fan-in filter of `_parallel_collaboration` (`multi_agent.py` lines
170-183): keep one `AgentResponse` per successful outcome, in participant
order; exceptions are logged and skipped. -/
def parallelSuccesses (outs : List (String × QueryOutcome)) : List AgentResponse :=
  outs.filterMap (fun p =>
    match p.2.result with
    | .ok resp =>
      some (⟨p.1, resp.content, resp.confidence_score.getD 0.8⟩ : AgentResponse)
    | .error _ => none)

/-- Protocol `_parallel_collaboration` (`multi_agent.py` lines 146-197):
fan out one identical query per participant, await all with
`asyncio.wait_for(..., timeout=task.timeout)` (modelled: times out iff the
maximum call duration exceeds the timeout), skip per-agent exceptions
(`return_exceptions=True`), and synthesize whatever remains — the source
raises nothing when every agent fails. -/
def parallelCollaboration (agents : AgentDict) (task : CollaborationTask) :
    Except CollabError CollabResult × List QueryCall :=
  match resolveAgents agents task.agents with
  | .error e => (.error e, [])
  | .ok pairs =>
    let outs := parallelOuts pairs task
    let log := outs.map (fun p => (⟨p.1, task.query, p.2.duration⟩ : QueryCall))
    if task.timeout < maxDuration (outs.map (·.2)) then
      (.error (.collaborationTimeout task.timeout), log)
    else
      let responses := parallelSuccesses outs
      match calculateConsensusScore responses with
      | .error e => (.error e, log)
      | .ok cscore =>
        (.ok { task_id := task.task_id
               mode := task.mode.value
               synthesized_response := synthesizeParallelResponses responses task
               individual_responses :=
                 responses.foldl (fun d r => dictInsert d r.agent_id r.content) []
               collaboration_quality := calculateCollaborationQuality responses
               consensus_score := cscore
               total_iterations := 1
               participating_agents := responses.map (·.agent_id) }, log)

/-- Shared body of the four serialized query loops of `multi_agent.py`
(debate initial round, lines 205-224; debate round, lines 231-262;
consensus initial round, lines 296-315; consensus round, lines 334-355):
await each participant in order with a per-agent prompt and context, wrap
the returned dict into an `AgentResponse` (missing `confidence_score`
defaults to 0.8), and let any exception propagate immediately — none of
these loops has a try/except. -/
def runRound (agents : AgentDict) (promptOf : String → String)
    (ctxOf : String → CollabContext) :
    List String → Except CollabError (List AgentResponse) × List QueryCall
  | [] => (.ok [], [])
  | agent_id :: rest =>
    match dictLookup agents agent_id with
    | none => (.error (.keyError agent_id), [])
    | some ag =>
      let prompt := promptOf agent_id
      let out := ag prompt (ctxOf agent_id)
      let call : QueryCall := ⟨agent_id, prompt, out.duration⟩
      match out.result with
      | .error msg => (.error (.agentError msg), [call])
      | .ok resp =>
        match runRound agents promptOf ctxOf rest with
        | (.error e, log) => (.error e, call :: log)
        | (.ok rs, log) =>
          (.ok ((⟨agent_id, resp.content, resp.confidence_score.getD 0.8⟩ :
            AgentResponse) :: rs), call :: log)

/-- Debate prompt of rounds 2+ (`multi_agent.py` lines 236-243), built from
the previous round's responses of every other participant. -/
def debatePrompt (task : CollaborationTask) (initial_responses : List AgentResponse)
    (agent_id : String) : String :=
  let other_responses := initial_responses.filter (fun r => r.agent_id ≠ agent_id)
  "Original query: " ++ task.query ++ "\n\n" ++
  "Other agents have responded:\n" ++
  (other_responses.foldl
    (fun s r => s ++ "- " ++ r.agent_id ++ ": " ++ r.content.take 150 ++ "...\n") "") ++
  "\nPlease provide your counter-argument or refined response:"

/-- One debate round 2+ (`multi_agent.py` lines 231-262): every participant
is shown the others' latest responses and counter-argues.  `iter` is the
number of rounds already completed, so the context reports
`iteration = iter + 1`. -/
def debateRound (agents : AgentDict) (task : CollaborationTask) (iter : Nat)
    (initial_responses : List AgentResponse) :
    Except CollabError (List AgentResponse) × List QueryCall :=
  runRound agents (debatePrompt task initial_responses)
    (fun agent_id =>
      { mode := "debate", iteration := some (iter + 1),
        other_responses :=
          ((initial_responses.filter (fun r => r.agent_id ≠ agent_id)).map
            (·.content)) })
    task.agents

/-- Loop `while current_iteration < task.max_iterations` of
`_debate_collaboration` (`multi_agent.py` lines 230-271): run a round,
extend the history, increment the round counter, and stop if
`_check_debate_convergence` holds between this round and the previous one.
`fuel` is `task.max_iterations - iter`; the value returned is the final
round counter together with the full multi-round history. -/
def debateLoop (agents : AgentDict) (task : CollaborationTask) :
    Nat → Nat → List AgentResponse → List AgentResponse →
    Except CollabError (Nat × List AgentResponse) × List QueryCall
  | 0, iter, _, all => (.ok (iter, all), [])
  | fuel + 1, iter, prev, all =>
    match debateRound agents task iter prev with
    | (.error e, log) => (.error e, log)
    | (.ok round_responses, log) =>
      match checkDebateConvergence round_responses prev with
      | .error e => (.error e, log)
      | .ok true => (.ok (iter + 1, all ++ round_responses), log)
      | .ok false =>
        let (res, log2) :=
          debateLoop agents task fuel (iter + 1) round_responses
            (all ++ round_responses)
        (res, log ++ log2)

/-- Protocol `_debate_collaboration` (`multi_agent.py` lines 199-288). -/
def debateCollaboration (agents : AgentDict) (task : CollaborationTask) :
    Except CollabError CollabResult × List QueryCall :=
  match runRound agents (fun _ => task.query)
      (fun _ => { mode := "debate", iteration := some 1,
                  total_agents := some task.agents.length })
      task.agents with
  | (.error e, log) => (.error e, log)
  | (.ok initial_responses, log1) =>
    let (lres, log2) :=
      debateLoop agents task (task.max_iterations - 1) 1
        initial_responses initial_responses
    match lres with
    | .error e => (.error e, log1 ++ log2)
    | .ok (current_iteration, all_responses) =>
      let last_round := lastN task.agents.length all_responses
      match synthesizeDebateResponses all_responses task with
      | .error e => (.error e, log1 ++ log2)
      | .ok synth =>
        match calculateConsensusScore last_round with
        | .error e => (.error e, log1 ++ log2)
        | .ok cscore =>
          (.ok { task_id := task.task_id
                 mode := task.mode.value
                 synthesized_response := synth
                 individual_responses :=
                   last_round.foldl (fun d r => dictInsert d r.agent_id r.content) []
                 collaboration_quality := calculateCollaborationQuality all_responses
                 consensus_score := cscore
                 total_iterations := current_iteration
                 participating_agents := task.agents
                 debate_rounds := some current_iteration
                 key_agreements := some (extractAgreements all_responses)
                 key_disagreements := some (extractDisagreements all_responses) },
           log1 ++ log2)

/-- Consensus-building prompt (`multi_agent.py` lines 328-332), identical
for every participant of the round. -/
def consensusQuery (task : CollaborationTask)
    (current_responses : List AgentResponse) : String :=
  "Original query: " ++ task.query ++ "\n\n" ++
  "Current responses from the team:\n" ++
  (current_responses.foldl
    (fun s r => s ++ "- " ++ r.agent_id ++ ": " ++ r.content.take 150 ++ "...\n") "") ++
  "\nPlease work towards a consensus by finding common ground and addressing differences:"

/-- Loop `while current_iteration < task.max_iterations` of
`_consensus_collaboration` (`multi_agent.py` lines 321-359): score the
current round first, break when the score exceeds 0.8, otherwise fan out a
consensus-building round.  `fuel` is `task.max_iterations - iter`; the
value returned is the final round counter, the final round's responses, and
the full history. -/
def consensusLoop (agents : AgentDict) (task : CollaborationTask) :
    Nat → Nat → List AgentResponse → List AgentResponse →
    Except CollabError (Nat × List AgentResponse × List AgentResponse) ×
      List QueryCall
  | 0, iter, current, all => (.ok (iter, current, all), [])
  | fuel + 1, iter, current, all =>
    match calculateConsensusScore current with
    | .error e => (.error e, [])
    | .ok consensus_score =>
      if 0.8 < consensus_score then (.ok (iter, current, all), [])
      else
        match runRound agents (fun _ => consensusQuery task current)
            (fun _ =>
              { mode := "consensus", iteration := some (iter + 1),
                current_consensus_score := some consensus_score,
                team_responses := current.map (·.content) })
            task.agents with
        | (.error e, log) => (.error e, log)
        | (.ok round_responses, log) =>
          let (res, log2) :=
            consensusLoop agents task fuel (iter + 1) round_responses
              (all ++ round_responses)
          (res, log ++ log2)

/-- Protocol `_consensus_collaboration` (`multi_agent.py` lines 290-375). -/
def consensusCollaboration (agents : AgentDict) (task : CollaborationTask) :
    Except CollabError CollabResult × List QueryCall :=
  match runRound agents (fun _ => task.query)
      (fun _ => { mode := "consensus", iteration := some 1,
                  goal := some "work towards consensus" })
      task.agents with
  | (.error e, log) => (.error e, log)
  | (.ok initial_responses, log1) =>
    let (lres, log2) :=
      consensusLoop agents task (task.max_iterations - 1) 1
        initial_responses initial_responses
    match lres with
    | .error e => (.error e, log1 ++ log2)
    | .ok (current_iteration, current_responses, all_responses) =>
      match calculateConsensusScore current_responses with
      | .error e => (.error e, log1 ++ log2)
      | .ok final_consensus_score =>
        match synthesizeConsensusResponses current_responses task with
        | .error e => (.error e, log1 ++ log2)
        | .ok synth =>
          (.ok { task_id := task.task_id
                 mode := task.mode.value
                 synthesized_response := synth
                 individual_responses :=
                   current_responses.foldl
                     (fun d r => dictInsert d r.agent_id r.content) []
                 collaboration_quality :=
                   calculateCollaborationQuality all_responses
                 consensus_score := final_consensus_score
                 total_iterations := current_iteration
                 participating_agents := task.agents
                 consensus_achieved :=
                   some (decide ((0.8 : ℚ) < final_consensus_score)) },
           log1 ++ log2)

/-- State of `MultiAgentCoordinator` (`multi_agent.py` lines 43-48). -/
structure MultiAgentCoordinator where
  active_agents : AgentDict
  active_collaborations : List (String × CollaborationTask)

/-- Method `register_agent` (`multi_agent.py` lines 50-53): a plain dict
assignment — an already-registered id is silently overwritten, no error is
raised. -/
def registerAgent (c : MultiAgentCoordinator) (agent_id : String) (ag : Agent) :
    MultiAgentCoordinator :=
  { c with active_agents := dictInsert c.active_agents agent_id ag }

/-- Method `unregister_agent` (`multi_agent.py` lines 55-59). -/
def unregisterAgent (c : MultiAgentCoordinator) (agent_id : String) :
    MultiAgentCoordinator :=
  { c with active_agents := dictErase c.active_agents agent_id }

/-- Dispatch of `start_collaboration` on `task.mode` (`multi_agent.py`
lines 77-86).  The `else: raise ValueError("Unsupported collaboration
mode")` branch is unreachable: the four cases cover the enum. -/
def dispatchCollaboration (agents : AgentDict) (task : CollaborationTask) :
    Except CollabError CollabResult × List QueryCall :=
  match task.mode with
  | .sequential => sequentialCollaboration agents task
  | .parallel => parallelCollaboration agents task
  | .debate => debateCollaboration agents task
  | .consensus => consensusCollaboration agents task

/-- Method `start_collaboration` (`multi_agent.py` lines 61-97): record the
task in `active_collaborations`, validate that every participant id is
registered (raising a `ValueError` listing all missing ids), dispatch on
the mode, and delete the task from `active_collaborations` only on the
success path — the `except` clause logs and re-raises without cleaning up.
Returns the outcome, the query log, and the updated coordinator state. -/
def startCollaboration (c : MultiAgentCoordinator) (task : CollaborationTask) :
    Except CollabError CollabResult × List QueryCall × MultiAgentCoordinator :=
  let c1 : MultiAgentCoordinator :=
    { c with active_collaborations :=
        dictInsert c.active_collaborations task.task_id task }
  let missing_agents :=
    task.agents.filter (fun a => (dictLookup c1.active_agents a).isNone)
  match missing_agents with
  | _ :: _ => (.error (.agentNotFound missing_agents), [], c1)
  | [] =>
    match dispatchCollaboration c1.active_agents task with
    | (.ok result, log) =>
      (.ok result, log,
        { c1 with active_collaborations :=
            dictErase c1.active_collaborations task.task_id })
    | (.error e, log) => (.error e, log, c1)

/-- Method `get_active_collaborations` (`multi_agent.py` lines 534-536):
returns a copy of the dict, i.e. an equal mapping. -/
def getActiveCollaborations (c : MultiAgentCoordinator) :
    List (String × CollaborationTask) :=
  c.active_collaborations

/-- Method `get_registered_agents` (`multi_agent.py` lines 538-540). -/
def getRegisteredAgents (c : MultiAgentCoordinator) : List String :=
  c.active_agents.map (·.1)

/-- AgentDomainModel dataclass (`agent_domain.py` lines 27-39).  The
`capabilities: List[str] = None` default is modelled as the empty list,
matching the `(self.capabilities or [])` read. -/
structure AgentDomainModel where
  id : String
  paper_id : String
  agent_type : String
  model_name : String
  specialization : Option String := none
  status : String
  conversation_count : Nat := 0
  user_rating_avg : Option ℚ := none
  capabilities : List String := []
deriving Repr, DecidableEq

/-- Method `is_active` (`agent_domain.py` lines 41-43). -/
def AgentDomainModel.isActive (a : AgentDomainModel) : Bool :=
  a.status = "active"

/-- Method `is_experienced` (`agent_domain.py` lines 45-47). -/
def AgentDomainModel.isExperienced (a : AgentDomainModel) : Bool :=
  10 ≤ a.conversation_count

/-- Method `has_capability` (`agent_domain.py` lines 49-51). -/
def AgentDomainModel.hasCapability (a : AgentDomainModel) (cap : String) : Bool :=
  a.capabilities.contains cap

/-- Method `is_suitable_for_collaboration` (`agent_domain.py` lines 67-73). -/
def AgentDomainModel.isSuitableForCollaboration (a : AgentDomainModel) : Bool :=
  a.isActive && a.isExperienced && a.hasCapability "multi_agent_collaboration"

/-- Errors (`ValueError`s) raised by `orchestrate_collaboration`
(`agent_domain.py` lines 120-142). -/
inductive DomainError where
  | agentMissing (agent_id : String)
  | agentNotSuitable (agent_id : String)
  | tooFewAgents
  | tooManyAgents
deriving Repr, DecidableEq

/-- Per-id resolution loop of `orchestrate_collaboration` (`agent_domain.py`
lines 124-134): look each id up in the repository and require suitability,
failing on the first offending id. -/
def resolveDomainAgents (repo : List (String × AgentDomainModel)) :
    List String → Except DomainError (List AgentDomainModel)
  | [] => .ok []
  | agent_id :: rest =>
    match dictLookup repo agent_id with
    | none => .error (.agentMissing agent_id)
    | some a =>
      if a.isSuitableForCollaboration then
        match resolveDomainAgents repo rest with
        | .error e => .error e
        | .ok as' => .ok (a :: as')
      else .error (.agentNotSuitable agent_id)

/-- Successful return value of `orchestrate_collaboration` (`agent_domain.py`
lines 160-166).  The `collaboration_id` is derived from
`datetime.utcnow()` and is not modelled. -/
structure OrchestrationSummary where
  participating_agents : List String
  collaboration_mode : String
  task : String
  status : String
deriving Repr, DecidableEq

/-- Method `orchestrate_collaboration` (`agent_domain.py` lines 120-166):
resolve and vet every id, then enforce the business rules
"at least 2 agents" and "maximum 5 agents" — note the bounds are [2, 5]
and the count check runs after all repository lookups. -/
def orchestrateCollaboration (repo : List (String × AgentDomainModel))
    (agent_ids : List String) (task : String) (mode : CollaborationMode) :
    Except DomainError OrchestrationSummary :=
  match resolveDomainAgents repo agent_ids with
  | .error e => .error e
  | .ok agents =>
    if agents.length < 2 then .error .tooFewAgents
    else if 5 < agents.length then .error .tooManyAgents
    else .ok { participating_agents := agent_ids
               collaboration_mode := mode.value
               task := task
               status := "initiated" }

/-- State of the ai-service `AgentCoordinator`
(`ai-service/multi-agent/agent_coordinator.py` lines 33-39), restricted to
the parts `register_agent` touches; the agent type is a parameter since the
claims only concern the registry discipline. -/
structure AICoordinator (α : Type) where
  active_agents : List (String × α)
  agent_relationships : List (String × List String)

/-- Method `register_agent` of the ai-service coordinator
(`agent_coordinator.py` lines 41-62): when the paper id is already
registered it logs and returns the id without touching the registry (a
silent no-op); otherwise it builds the agent via `PaperAgentFactory`
(modelled by the `create` argument) and registers it. -/
def registerAgentAI {α : Type} (c : AICoordinator α) (paper_id : String)
    (create : Unit → α) : String × AICoordinator α :=
  if (dictLookup c.active_agents paper_id).isSome then (paper_id, c)
  else
    (paper_id,
      { active_agents := dictInsert c.active_agents paper_id (create ())
        agent_relationships := dictInsert c.agent_relationships paper_id [] })

/-! Test fixtures: concrete agent behaviours, coordinators and tasks used by
the witness and counterexample theorems below. -/

/-- Agent double that always answers with a fixed content, confidence and
call duration. -/
def mkAgent (content : String) (conf : ℚ) (d : Nat) : Agent :=
  fun _ _ => { duration := d, result := .ok { content := content, confidence_score := some conf } }

/-- Agent double whose `process_query` always raises. -/
def failAgent (msg : String) : Agent :=
  fun _ _ => { duration := 0, result := .error msg }

/-- Coordinator whose two registered agents both raise on every query. -/
def coordAllFail : MultiAgentCoordinator :=
  ⟨[("a1", failAgent "x"), ("a2", failAgent "y")], []⟩

/-- Parallel task over the two failing agents. -/
def taskParFail : CollaborationTask :=
  { task_id := "t-par", task_type := "qa", query := "Q",
    agents := ["a1", "a2"], mode := .parallel }

/-- Coordinator with two healthy agents whose calls take 400 seconds each. -/
def coordSlow : MultiAgentCoordinator :=
  ⟨[("a1", mkAgent "hello" 0.9 400), ("a2", mkAgent "world!" 0.7 400)], []⟩

/-- Single-participant sequential task (out of the spec's [2,10] bounds). -/
def taskSeqOne : CollaborationTask :=
  { task_id := "t-one", task_type := "qa", query := "Q",
    agents := ["a1"], mode := .sequential }

/-- Two-participant sequential task with the default 300-second timeout;
against `coordSlow` its two serialized calls take 800 seconds. -/
def taskSeqTwo : CollaborationTask :=
  { task_id := "t-two", task_type := "qa", query := "Q",
    agents := ["a1", "a2"], mode := .sequential }

/-- Coordinator where the first agent raises and the second is healthy. -/
def coordFirstFails : MultiAgentCoordinator :=
  ⟨[("a1", failAgent "boom"), ("a2", mkAgent "ok" 0.8 1)], []⟩

/-- Coordinator with two healthy agents giving equal-length answers. -/
def coordStable : MultiAgentCoordinator :=
  ⟨[("a1", mkAgent "hello" 0.9 1), ("a2", mkAgent "howdy" 0.7 1)], []⟩

/-- Consensus task over the two equal-length agents: round 1 scores 1. -/
def taskCons : CollaborationTask :=
  { task_id := "t-cons", task_type := "qa", query := "Q",
    agents := ["a1", "a2"], mode := .consensus }

/-- Debate task over the two constant agents: round 2 repeats round 1's
lengths, so the debate converges at round 2 of 3. -/
def taskDeb : CollaborationTask :=
  { task_id := "t-deb", task_type := "qa", query := "Q",
    agents := ["a1", "a2"], mode := .debate, max_iterations := 3 }

/-- Responses produced by any round of `coordStable`'s two constant agents:
every round repeats these equal-length contents. -/
def stableRound : List AgentResponse :=
  [⟨"a1", "hello", 0.9⟩, ⟨"a2", "howdy", 0.7⟩]

/-- Query log of `taskDeb`'s second debate round against `coordStable`. -/
def debRound2Log : List QueryCall :=
  (debateRound coordStable.active_agents taskDeb 1 stableRound).2

/-- Synthesized text of the converged two-round debate of `taskDeb`. -/
def debSynthW : String :=
  ((synthesizeDebateResponses (stableRound ++ stableRound) taskDeb).toOption).getD ""

/-- Suitable domain agent used by the domain-validation witnesses. -/
def suitableAgent (i : String) : AgentDomainModel :=
  { id := i, paper_id := "p", agent_type := "collaboration",
    model_name := "m", status := "active", conversation_count := 12,
    capabilities := ["multi_agent_collaboration", "question_answering"] }

/-- Domain repository with one suitable agent. -/
def repoOne : List (String × AgentDomainModel) :=
  [("d1", suitableAgent "d1")]

/-- Sample ai-service coordinator state with one registered (opaque) agent. -/
def aiCoordOne : AICoordinator Nat :=
  ⟨[("p1", 7)], [("p1", [])]⟩

/-- Coordinator with a single registered agent. -/
def coordOneAgent : MultiAgentCoordinator :=
  ⟨[("a1", mkAgent "hello" 0.9 1)], []⟩

/-- Task referencing one registered and two unregistered participants. -/
def taskMissing : CollaborationTask :=
  { task_id := "t-miss", task_type := "qa", query := "Q",
    agents := ["a1", "b", "c"], mode := .parallel }

/-- Coordinator with an empty registry. -/
def coordEmpty : MultiAgentCoordinator := ⟨[], []⟩

/-- Parallel task over agents "a1" and "a2". -/
def taskParTwo : CollaborationTask :=
  { task_id := "t-par2", task_type := "qa", query := "Q",
    agents := ["a1", "a2"], mode := .parallel }

/-- Parallel task whose fan-out against `coordSlow` (two 400-second calls)
exceeds the default 300-second timeout. -/
def taskParSlow : CollaborationTask :=
  { task_id := "t-parslow", task_type := "qa", query := "Q",
    agents := ["a1", "a2"], mode := .parallel }

/-- Eleven participant ids (one more than the spec's upper bound of 10). -/
def elevenIds : List String :=
  ["b1", "b2", "b3", "b4", "b5", "b6", "b7", "b8", "b9", "b10", "b11"]

/-- Coordinator with eleven registered agents: the first healthy, the other
ten raising on every query. -/
def coordMany : MultiAgentCoordinator :=
  ⟨("b1", mkAgent "hello" 0.9 1) ::
    (elevenIds.drop 1).map (fun i => (i, failAgent "down")), []⟩

/-- Parallel task with eleven participants (above the spec's bound). -/
def taskParMany : CollaborationTask :=
  { task_id := "t-many", task_type := "qa", query := "Q",
    agents := elevenIds, mode := .parallel }

/-! Helper lemmas about the dict model. -/

theorem dictLookup_dictInsert_self {α : Type} (d : List (String × α))
    (k : String) (v : α) : dictLookup (dictInsert d k v) k = some v := by
  induction d with
  | nil => simp [dictInsert, dictLookup]
  | cons p rest ih =>
    obtain ⟨k', v'⟩ := p
    by_cases h : k' = k
    · simp [dictInsert, dictLookup, h]
    · simp [dictInsert, dictLookup, h, ih]

theorem dictInsert_of_not_mem {α : Type} (d : List (String × α)) (k : String)
    (v : α) (h : ∀ p ∈ d, p.1 ≠ k) : dictInsert d k v = d ++ [(k, v)] := by
  induction d with
  | nil => rfl
  | cons p rest ih =>
    obtain ⟨k', v'⟩ := p
    have hk : k' ≠ k := h (k', v') (by simp)
    simp only [dictInsert, if_neg hk, List.cons_append, List.cons.injEq, true_and]
    exact ih (fun q hq => h q (by simp [hq]))

theorem foldl_dictInsert_eq_map (l : List AgentResponse)
    (acc : List (String × String))
    (hd : ∀ r ∈ l, ∀ p ∈ acc, p.1 ≠ r.agent_id)
    (hn : (l.map (·.agent_id)).Nodup) :
    l.foldl (fun d r => dictInsert d r.agent_id r.content) acc =
      acc ++ l.map (fun r => (r.agent_id, r.content)) := by
  induction l generalizing acc with
  | nil => simp
  | cons r l ih =>
    simp only [List.map_cons, List.nodup_cons, List.mem_map] at hn
    obtain ⟨hr, hn⟩ := hn
    simp only [List.foldl_cons]
    rw [dictInsert_of_not_mem acc r.agent_id r.content
      (fun p hp => hd r (by simp) p hp)]
    rw [ih (acc ++ [(r.agent_id, r.content)]) ?_ hn]
    · simp
    · intro r' hr' p hp
      rcases List.mem_append.mp hp with hp | hp
      · exact hd r' (by simp [hr']) p hp
      · simp only [List.mem_singleton] at hp
        subst hp
        intro hcontra
        exact hr ⟨r', hr', hcontra.symm⟩

theorem resolveDomainAgents_ok (repo : List (String × AgentDomainModel))
    (ids : List String)
    (h : ids.all (fun i =>
      ((dictLookup repo i).map (·.isSuitableForCollaboration)).getD false) = true) :
    ∃ as', resolveDomainAgents repo ids = .ok as' ∧ as'.length = ids.length := by
  induction ids with
  | nil => exact ⟨[], rfl, rfl⟩
  | cons i rest ih =>
    simp only [List.all_cons, Bool.and_eq_true] at h
    obtain ⟨h1, h2⟩ := h
    obtain ⟨as', hres, hlen⟩ := ih h2
    cases hl : dictLookup repo i with
    | none => rw [hl] at h1; simp at h1
    | some a =>
      rw [hl] at h1
      simp only [Option.map_some', Option.getD_some] at h1
      refine ⟨a :: as', ?_, by simp [hlen]⟩
      simp only [resolveDomainAgents, hl, h1, hres, if_true]

/-! Claim theorems. -/

/-- C8: for every non-empty list of responses,
`_calculate_collaboration_quality` returns
min(1, 0.6·(average confidence) + 0.4·diversity), where diversity is the
number of distinct first-100-character content prefixes divided by the
number of responses.  Its witness instantiates this at confidences 0.9 and
0.7 with distinct prefixes, giving exactly 0.6·0.8 + 0.4·1.0 = 0.88. -/
theorem collaboration_quality_formula (responses : List AgentResponse)
    (h : responses ≠ []) :
    calculateCollaborationQuality responses =
      min 1 (0.6 * ((responses.map (·.confidence)).sum / (responses.length : ℚ)) +
        0.4 * (((responses.map (fun r => r.content.take 100)).dedup.length : ℚ) /
          (responses.length : ℚ))) := by
  simp only [calculateCollaborationQuality, if_neg h]
  rw [min_comm]
  congr 1
  ring

/-- Witness for C8: the spec's scenario of two responses with confidences
0.9 and 0.7 and distinct content prefixes scores exactly 0.88. -/
theorem collaboration_quality_formula_witness :
    ([⟨"p1", "A", 0.9⟩, ⟨"p2", "B", 0.7⟩] : List AgentResponse) ≠ [] ∧
    calculateCollaborationQuality [⟨"p1", "A", 0.9⟩, ⟨"p2", "B", 0.7⟩] = 0.88 :=
  ⟨List.cons_ne_nil _ _, by
    rw [collaboration_quality_formula [⟨"p1", "A", 0.9⟩, ⟨"p2", "B", 0.7⟩]
      (List.cons_ne_nil _ _)]
    have h1 : ("A" : String).take 100 = "A" := rfl
    have h2 : ("B" : String).take 100 = "B" := rfl
    have h3 : ((["A", "B"] : List String)).dedup = ["A", "B"] := by decide
    simp only [List.map_cons, List.map_nil, List.sum_cons, List.sum_nil,
      List.length_cons, List.length_nil, h1, h2, h3]
    norm_num⟩

/-- C9 counterexample: registering an id that is already registered raises
nothing — `register_agent` is a bare dict assignment — and afterwards the
registry resolves the id to the second handle (the first is silently
overwritten, refuting the claimed `DuplicateAgentError`). -/
theorem duplicate_registration_no_error_cex :
    (dictLookup (registerAgent (registerAgent ⟨[], []⟩ "a" (mkAgent "one" 0.5 0))
        "a" (mkAgent "two" 0.5 0)).active_agents "a").map
      (fun ag => (ag "p" { mode := "m" }).result) =
    some (.ok { content := "two", confidence_score := some 0.5 }) := rfl

/-- C9 amended: neither registration path can fail on a duplicate id — the
backend `register_agent` silently overwrites (the id afterwards resolves to
the newly supplied handle, whatever was there before), and the ai-service
`register_agent` silently no-ops (it returns the id and leaves the
coordinator untouched when the id is already present). -/
theorem register_agent_overwrite_or_noop :
    (∀ (c : MultiAgentCoordinator) (agent_id : String) (ag : Agent),
      dictLookup (registerAgent c agent_id ag).active_agents agent_id = some ag) ∧
    (∀ (α : Type) (c : AICoordinator α) (paper_id : String) (create : Unit → α),
      (dictLookup c.active_agents paper_id).isSome = true →
        registerAgentAI c paper_id create = (paper_id, c)) := by
  refine ⟨fun c agent_id ag => dictLookup_dictInsert_self .., ?_⟩
  intro α c paper_id create h
  simp [registerAgentAI, h]

/-- Witness for C9's amended theorem: overwrite observed on a concrete
registry, and the no-op branch taken on a coordinator that already holds
the id. -/
theorem register_agent_overwrite_or_noop_witness :
    dictLookup (registerAgent ⟨[], []⟩ "a" (mkAgent "one" 0.5 0)).active_agents "a"
        = some (mkAgent "one" 0.5 0) ∧
    (dictLookup aiCoordOne.active_agents "p1").isSome = true ∧
    registerAgentAI aiCoordOne "p1" (fun _ => 9) = ("p1", aiCoordOne) :=
  ⟨register_agent_overwrite_or_noop.1 ⟨[], []⟩ "a" (mkAgent "one" 0.5 0),
   by decide,
   register_agent_overwrite_or_noop.2 Nat aiCoordOne "p1" (fun _ => 9) (by decide)⟩

/-- C3: when at least one participant id is unregistered,
`start_collaboration` fails with the error carrying the complete ordered
list of unresolved ids (the filter collects them all, not just the first),
and the query log is empty — no registered agent is contacted. -/
theorem missing_agents_rejected_before_queries (c : MultiAgentCoordinator)
    (task : CollaborationTask)
    (h : task.agents.filter (fun a => (dictLookup c.active_agents a).isNone) ≠ []) :
    (startCollaboration c task).1 =
      .error (.agentNotFound
        (task.agents.filter (fun a => (dictLookup c.active_agents a).isNone))) ∧
    (startCollaboration c task).2.1 = [] := by
  obtain ⟨x, xs, hxs⟩ := List.exists_cons_of_ne_nil h
  simp [startCollaboration, hxs]

/-- Witness for C3: a task naming two unregistered ids is rejected with
both ids listed and an empty query log. -/
theorem missing_agents_rejected_before_queries_witness :
    taskMissing.agents.filter
        (fun a => (dictLookup coordOneAgent.active_agents a).isNone) ≠ [] ∧
    (startCollaboration coordOneAgent taskMissing).1 =
      .error (.agentNotFound ["b", "c"]) ∧
    (startCollaboration coordOneAgent taskMissing).2.1 = [] :=
  ⟨by decide,
   (missing_agents_rejected_before_queries coordOneAgent taskMissing (by decide)).1,
   (missing_agents_rejected_before_queries coordOneAgent taskMissing (by decide)).2⟩

/-- C10: whenever `start_collaboration` fails — missing agents, a propagated
agent exception, or any other error — the task is still present in
`active_collaborations` afterwards: the task is inserted before validation
and the deletion runs only on the success path, so a subsequent
`get_active_collaborations` still contains the failed task under its id. -/
theorem failed_task_stays_active (c : MultiAgentCoordinator)
    (task : CollaborationTask) (e : CollabError)
    (h : (startCollaboration c task).1 = .error e) :
    dictLookup (getActiveCollaborations (startCollaboration c task).2.2)
      task.task_id = some task := by
  unfold getActiveCollaborations
  unfold startCollaboration at h ⊢
  cases hm : task.agents.filter (fun a => (dictLookup c.active_agents a).isNone) with
  | cons x xs =>
    simp only [hm]
    exact dictLookup_dictInsert_self ..
  | nil =>
    simp only [hm] at h ⊢
    cases hd : dispatchCollaboration c.active_agents task with
    | mk res log =>
      cases res with
      | ok r => simp [hd] at h
      | error e' =>
        simp only [hd]
        exact dictLookup_dictInsert_self ..

/-- Witness for C10: a run that fails on unregistered participants leaves
the task recorded in the active-collaborations map. -/
theorem failed_task_stays_active_witness :
    (startCollaboration coordEmpty taskSeqOne).1 =
      .error (.agentNotFound ["a1"]) ∧
    dictLookup (getActiveCollaborations (startCollaboration coordEmpty taskSeqOne).2.2)
      "t-one" = some taskSeqOne :=
  ⟨rfl,
   failed_task_stays_active coordEmpty taskSeqOne (.agentNotFound ["a1"]) rfl⟩

/-- C2 counterexample: a single-participant task does not fail with any
validation error — `start_collaboration` has no participant-count check, so
the run completes successfully (reporting one iteration) and the single
agent is contacted once. -/
theorem no_participant_bounds_check_cex :
    ((startCollaboration coordOneAgent taskSeqOne).1).toOption.map
      (·.total_iterations) = some 1 ∧
    (startCollaboration coordOneAgent taskSeqOne).2.1.length = 1 := ⟨rfl, rfl⟩

/-- C2 amended: the orchestrator layer (`start_collaboration`) performs no
participant-count validation at all — a 1-participant and an 11-participant
sequential task over registered agents both run to completion — while the
domain layer (`orchestrate_collaboration`) enforces bounds of [2, 5] (not
[2, 10]), raising its too-few/too-many `ValueError` only after every id has
been resolved and vetted against the repository. -/
theorem participant_count_validation :
    (∀ (repo : List (String × AgentDomainModel)) (ids : List String)
      (task : String) (mode : CollaborationMode),
      ids.all (fun i =>
        ((dictLookup repo i).map (·.isSuitableForCollaboration)).getD false) = true →
      orchestrateCollaboration repo ids task mode =
        (if ids.length < 2 then .error .tooFewAgents
         else if 5 < ids.length then .error .tooManyAgents
         else .ok { participating_agents := ids, collaboration_mode := mode.value,
                    task := task, status := "initiated" })) ∧
    (∀ (content : String) (conf : ℚ) (d : Nat),
      ((startCollaboration ⟨[("a1", mkAgent content conf d)], []⟩ taskSeqOne).1).toOption.isSome
        = true) ∧
    ((startCollaboration coordMany taskParMany).1).toOption.isSome = true := by
  refine ⟨?_, ?_, rfl⟩
  · intro repo ids task mode h
    obtain ⟨as', hres, hlen⟩ := resolveDomainAgents_ok repo ids h
    simp only [orchestrateCollaboration, hres, hlen]
  · intro content conf d
    simp [startCollaboration, dispatchCollaboration, taskSeqOne,
      sequentialCollaboration, seqLoop, dictLookup, mkAgent,
      calculateConsensusScore, Except.toOption, Option.isSome]

/-- Witness for C2's amended theorem: the domain layer rejects one suitable
agent as too few, and a concrete single-agent sequential run succeeds. -/
theorem participant_count_validation_witness :
    (["d1"].all (fun i =>
      ((dictLookup repoOne i).map (·.isSuitableForCollaboration)).getD false) = true ∧
     orchestrateCollaboration repoOne ["d1"] "T" .sequential = .error .tooFewAgents) ∧
    ((startCollaboration ⟨[("a1", mkAgent "x" 0.5 0)], []⟩ taskSeqOne).1).toOption.isSome
      = true :=
  ⟨⟨by decide,
    participant_count_validation.1 repoOne ["d1"] "T" .sequential (by decide)⟩,
   participant_count_validation.2.1 "x" 0.5 0⟩

/-- C1 counterexample: when every participant's parallel query raises an
error, the run does not fail with any "no agent responded" error — it
returns a successful result synthesized from zero responses:
`perAgentResponses` is empty and one iteration is reported. -/
theorem parallel_total_failure_cex :
    ((startCollaboration coordAllFail taskParFail).1).toOption.map
      (·.individual_responses) = some [] ∧
    ((startCollaboration coordAllFail taskParFail).1).toOption.map
      (·.total_iterations) = some 1 := ⟨rfl, rfl⟩

/-- C1 amended: in PARALLEL mode per-agent failures are isolated — whenever
the fan-out resolves, no timeout fires and the scoring of the surviving
responses does not itself raise, the run returns a successful result whose
`perAgentResponses` holds exactly one entry per successful participant in
participant order, the failed agents' contributions omitted.  In
particular, when every participant fails the run still returns a successful
result with an empty `perAgentResponses` rather than failing with a
`NoAgentRespondedError`. -/
theorem parallel_per_agent_failure_isolation
    (agents : AgentDict) (task : CollaborationTask)
    (pairs : List (String × Agent)) (s : ℚ)
    (h1 : resolveAgents agents task.agents = .ok pairs)
    (h2 : maxDuration ((parallelOuts pairs task).map (·.2)) ≤ task.timeout)
    (h3 : calculateConsensusScore (parallelSuccesses (parallelOuts pairs task)) = .ok s)
    (h4 : ((parallelSuccesses (parallelOuts pairs task)).map (·.agent_id)).Nodup) :
    ∃ r, parallelCollaboration agents task =
        (.ok r, (parallelOuts pairs task).map
          (fun p => (⟨p.1, task.query, p.2.duration⟩ : QueryCall))) ∧
      r.individual_responses =
        (parallelSuccesses (parallelOuts pairs task)).map
          (fun resp => (resp.agent_id, resp.content)) ∧
      r.participating_agents =
        (parallelSuccesses (parallelOuts pairs task)).map (·.agent_id) := by
  simp only [parallelCollaboration, h1]
  rw [if_neg (not_lt.mpr h2)]
  simp only [h3]
  refine ⟨_, rfl, ?_, rfl⟩
  rw [foldl_dictInsert_eq_map _ [] (by simp) h4]
  simp

/-- Witness for C1's amended theorem: two parallel participants of which
exactly one raises; the run succeeds and `perAgentResponses` holds exactly
the one successful entry. -/
theorem parallel_per_agent_failure_isolation_witness :
    ∃ r, parallelCollaboration coordFirstFails.active_agents taskParTwo =
        (.ok r, [⟨"a1", "Q", 0⟩, ⟨"a2", "Q", 1⟩]) ∧
      r.individual_responses = [("a2", "ok")] ∧
      r.participating_agents = ["a2"] :=
  parallel_per_agent_failure_isolation coordFirstFails.active_agents taskParTwo
    [("a1", failAgent "boom"), ("a2", mkAgent "ok" 0.8 1)] 1
    rfl (by decide) rfl (by decide)

/-- C7 counterexample: a sequential task in which exactly one agent (the
first of two) raises does not drop that contribution and continue — the
exception propagates, the run fails, and the second agent is never queried
(the log holds the single failing call). -/
theorem sequential_failure_not_tolerated_cex :
    (startCollaboration coordFirstFails taskSeqTwo).1 =
      .error (.agentError "boom") ∧
    (startCollaboration coordFirstFails taskSeqTwo).2.1 = [⟨"a1", "Q", 0⟩] :=
  ⟨rfl, rfl⟩

/-- C7 amended: in SEQUENTIAL mode an individual agent failure is fatal to
the whole task — `_sequential_collaboration` has no try/except around
`process_query`, so the first failing agent's exception terminates the loop
at once (the remaining agents are never queried; the log gains only the
failing call) and propagates out of the protocol unchanged. -/
theorem sequential_agent_failure_is_fatal :
    (∀ (agents : AgentDict) (task : CollaborationTask) (aid : String)
      (rest : List String) (i : Nat) (responses : List AgentResponse)
      (cur : String) (ag : Agent) (msg : String),
      dictLookup agents aid = some ag →
      (ag cur (seqContext task i responses)).result = .error msg →
      seqLoop agents task (aid :: rest) i responses cur =
        (.error (.agentError msg),
         [⟨aid, cur, (ag cur (seqContext task i responses)).duration⟩])) ∧
    (∀ (agents : AgentDict) (task : CollaborationTask) (e : CollabError)
      (log : List QueryCall),
      seqLoop agents task task.agents 0 [] task.query = (.error e, log) →
      sequentialCollaboration agents task = (.error e, log)) := by
  constructor
  · intro agents task aid rest i responses cur ag msg hl hr
    simp only [seqLoop, hl, hr]
  · intro agents task e log h
    simp only [sequentialCollaboration, h]

/-- Witness for C7's amended theorem: the failing first agent of
`coordFirstFails` kills the whole sequential run after a single call. -/
theorem sequential_agent_failure_is_fatal_witness :
    seqLoop coordFirstFails.active_agents taskSeqTwo ["a1", "a2"] 0 [] "Q" =
      (.error (.agentError "boom"), [⟨"a1", "Q", 0⟩]) ∧
    sequentialCollaboration coordFirstFails.active_agents taskSeqTwo =
      (.error (.agentError "boom"), [⟨"a1", "Q", 0⟩]) :=
  ⟨sequential_agent_failure_is_fatal.1 coordFirstFails.active_agents taskSeqTwo
    "a1" ["a2"] 0 [] "Q" (failAgent "boom") "boom" rfl rfl,
   sequential_agent_failure_is_fatal.2 coordFirstFails.active_agents taskSeqTwo
    (.agentError "boom") [⟨"a1", "Q", 0⟩]
    (sequential_agent_failure_is_fatal.1 coordFirstFails.active_agents taskSeqTwo
      "a1" ["a2"] 0 [] "Q" (failAgent "boom") "boom" rfl rfl)⟩

theorem synthesizeSequential_timeout_irrel (rs : List AgentResponse)
    (task : CollaborationTask) (t : Nat) :
    synthesizeSequentialResponses rs { task with timeout := t } =
      synthesizeSequentialResponses rs task := rfl

theorem synthesizeDebate_timeout_irrel (rs : List AgentResponse)
    (task : CollaborationTask) (t : Nat) :
    synthesizeDebateResponses rs { task with timeout := t } =
      synthesizeDebateResponses rs task := rfl

theorem synthesizeConsensus_timeout_irrel (rs : List AgentResponse)
    (task : CollaborationTask) (t : Nat) :
    synthesizeConsensusResponses rs { task with timeout := t } =
      synthesizeConsensusResponses rs task := rfl

theorem seqContext_timeout_irrel (task : CollaborationTask) (t i : Nat)
    (rs : List AgentResponse) :
    seqContext { task with timeout := t } i rs = seqContext task i rs := rfl

theorem seqLoop_timeout_irrel (agents : AgentDict) (task : CollaborationTask)
    (t : Nat) (l : List String) (i : Nat) (rs : List AgentResponse)
    (cur : String) :
    seqLoop agents { task with timeout := t } l i rs cur =
      seqLoop agents task l i rs cur := by
  induction l generalizing i rs cur with
  | nil => rfl
  | cons a l ih =>
    simp only [seqLoop, seqContext_timeout_irrel]
    cases hl : dictLookup agents a with
    | none => rfl
    | some ag =>
      simp only []
      cases hr : (ag cur (seqContext task i rs)).result with
      | error msg => rfl
      | ok resp => simp only [ih]

theorem sequentialCollaboration_timeout_irrel (agents : AgentDict)
    (task : CollaborationTask) (t : Nat) :
    sequentialCollaboration agents { task with timeout := t } =
      sequentialCollaboration agents task := by
  simp only [sequentialCollaboration, seqLoop_timeout_irrel,
    synthesizeSequential_timeout_irrel]

theorem debateRound_timeout_irrel (agents : AgentDict)
    (task : CollaborationTask) (t iter : Nat) (prev : List AgentResponse) :
    debateRound agents { task with timeout := t } iter prev =
      debateRound agents task iter prev := rfl

theorem debateLoop_timeout_irrel (agents : AgentDict)
    (task : CollaborationTask) (t : Nat) :
    ∀ (fuel iter : Nat) (prev all : List AgentResponse),
    debateLoop agents { task with timeout := t } fuel iter prev all =
      debateLoop agents task fuel iter prev all := by
  intro fuel
  induction fuel with
  | zero => intro iter prev all; rfl
  | succ fuel ih =>
    intro iter prev all
    simp only [debateLoop, debateRound_timeout_irrel]
    cases hd : debateRound agents task iter prev with
    | mk res log =>
      cases res with
      | error e => rfl
      | ok rr =>
        simp only []
        cases hc : checkDebateConvergence rr prev with
        | error e => rfl
        | ok b =>
          cases b with
          | true => rfl
          | false => simp only [ih]

theorem debateCollaboration_timeout_irrel (agents : AgentDict)
    (task : CollaborationTask) (t : Nat) :
    debateCollaboration agents { task with timeout := t } =
      debateCollaboration agents task := by
  simp only [debateCollaboration, debateLoop_timeout_irrel,
    synthesizeDebate_timeout_irrel]

theorem consensusLoop_timeout_irrel (agents : AgentDict)
    (task : CollaborationTask) (t : Nat) :
    ∀ (fuel iter : Nat) (current all : List AgentResponse),
    consensusLoop agents { task with timeout := t } fuel iter current all =
      consensusLoop agents task fuel iter current all := by
  intro fuel
  induction fuel with
  | zero => intro iter current all; rfl
  | succ fuel ih =>
    intro iter current all
    simp only [consensusLoop]
    cases hs : calculateConsensusScore current with
    | error e => rfl
    | ok score =>
      simp only []
      by_cases h8 : (0.8 : ℚ) < score
      · rw [if_pos h8, if_pos h8]
      · rw [if_neg h8, if_neg h8]
        have hq : (fun _ : String => consensusQuery { task with timeout := t } current) =
            (fun _ : String => consensusQuery task current) := rfl
        rw [hq]
        cases hr : runRound agents (fun _ => consensusQuery task current)
            (fun _ => { mode := "consensus", iteration := some (iter + 1),
                        current_consensus_score := some score,
                        team_responses := current.map (·.content) })
            task.agents with
        | mk res log =>
          cases res with
          | error e => rfl
          | ok rr => simp only [ih]

theorem consensusCollaboration_timeout_irrel (agents : AgentDict)
    (task : CollaborationTask) (t : Nat) :
    consensusCollaboration agents { task with timeout := t } =
      consensusCollaboration agents task := by
  simp only [consensusCollaboration, consensusLoop_timeout_irrel,
    synthesizeConsensus_timeout_irrel]

/-- C4 counterexample: a SEQUENTIAL run whose two serialized agent calls
take 800 seconds in total against a 300-second `timeoutSeconds` still
returns a complete successful result — the whole-run timeout is not
enforced outside PARALLEL mode. -/
theorem whole_run_timeout_cex :
    ((startCollaboration coordSlow taskSeqTwo).1).toOption.isSome = true ∧
    totalDuration (startCollaboration coordSlow taskSeqTwo).2.1 = 800 ∧
    taskSeqTwo.timeout = 300 := by
  have h5 : ("hello" : String).length = 5 := rfl
  have h6 : ("world!" : String).length = 6 := rfl
  have hscore : calculateConsensusScore
      [⟨"a1", "hello", 0.9⟩, ⟨"a2", "world!", 0.7⟩] = .ok (120 / 121) := by
    simp only [calculateConsensusScore, meanContentLength, List.map_cons,
      List.map_nil, List.sum_cons, List.sum_nil, List.length_cons,
      List.length_nil, h5, h6]
    norm_num
  refine ⟨?_, ?_, rfl⟩ <;>
    simp [startCollaboration, dispatchCollaboration, sequentialCollaboration,
      seqLoop, coordSlow, taskSeqTwo, dictLookup, mkAgent, hscore,
      totalDuration, Except.toOption, seqContext]

/-- C4 amended: only the PARALLEL protocol is bounded by the task's
`timeoutSeconds` — there, when the fan-out's completion time (the maximum
call duration) exceeds the timeout, the run fails with the timeout error
and returns no partial result; the SEQUENTIAL, DEBATE and CONSENSUS
protocols never read the timeout at all, returning identical outcomes for
every timeout value. -/
theorem timeout_enforced_only_in_parallel :
    (∀ (agents : AgentDict) (task : CollaborationTask)
      (pairs : List (String × Agent)),
      resolveAgents agents task.agents = .ok pairs →
      task.timeout < maxDuration ((parallelOuts pairs task).map (·.2)) →
      parallelCollaboration agents task =
        (.error (.collaborationTimeout task.timeout),
         (parallelOuts pairs task).map
           (fun p => (⟨p.1, task.query, p.2.duration⟩ : QueryCall)))) ∧
    (∀ (agents : AgentDict) (task : CollaborationTask) (t : Nat),
      sequentialCollaboration agents { task with timeout := t } =
        sequentialCollaboration agents task ∧
      debateCollaboration agents { task with timeout := t } =
        debateCollaboration agents task ∧
      consensusCollaboration agents { task with timeout := t } =
        consensusCollaboration agents task) := by
  constructor
  · intro agents task pairs h1 h2
    simp only [parallelCollaboration, h1]
    rw [if_pos h2]
  · intro agents task t
    exact ⟨sequentialCollaboration_timeout_irrel agents task t,
      debateCollaboration_timeout_irrel agents task t,
      consensusCollaboration_timeout_irrel agents task t⟩

/-- Witness for C4's amended theorem: a parallel fan-out of two 400-second
calls against a 300-second timeout fails with the timeout error, and the
three non-parallel protocols give identical results under a changed
timeout. -/
theorem timeout_enforced_only_in_parallel_witness :
    parallelCollaboration coordSlow.active_agents taskParSlow =
      (.error (.collaborationTimeout 300),
       [⟨"a1", "Q", 400⟩, ⟨"a2", "Q", 400⟩]) ∧
    (sequentialCollaboration coordSlow.active_agents
        { taskSeqTwo with timeout := 42 } =
      sequentialCollaboration coordSlow.active_agents taskSeqTwo ∧
     debateCollaboration coordSlow.active_agents
        { taskSeqTwo with timeout := 42 } =
      debateCollaboration coordSlow.active_agents taskSeqTwo ∧
     consensusCollaboration coordSlow.active_agents
        { taskSeqTwo with timeout := 42 } =
      consensusCollaboration coordSlow.active_agents taskSeqTwo) :=
  ⟨timeout_enforced_only_in_parallel.1 coordSlow.active_agents taskParSlow
    [("a1", mkAgent "hello" 0.9 400), ("a2", mkAgent "world!" 0.7 400)]
    rfl (by decide),
   timeout_enforced_only_in_parallel.2 coordSlow.active_agents taskSeqTwo 42⟩

/-- C5: the debate convergence predicate (on the domain where the source's
division is defined, i.e. the previous round's mean content length is
nonzero) returns true iff both rounds are non-empty and the relative change
of mean response length is strictly below 0.1; whenever it returns true for
a round run while `current_iteration < max_iterations`, the debate loop
stops at once — the loop returns with the just-incremented round counter
and no further queries beyond that round's are issued — and the debate
result reports exactly that counter as `iterationsRun`. -/
theorem debate_convergence_and_early_stop :
    (∀ (cur prev : List AgentResponse), meanContentLength prev ≠ 0 →
      checkDebateConvergence cur prev =
        .ok (decide (cur ≠ [] ∧ prev ≠ [] ∧
          |meanContentLength cur - meanContentLength prev| /
            meanContentLength prev < 0.1))) ∧
    (∀ (agents : AgentDict) (task : CollaborationTask) (fuel iter : Nat)
      (prev all rr : List AgentResponse) (log : List QueryCall),
      debateRound agents task iter prev = (.ok rr, log) →
      checkDebateConvergence rr prev = .ok true →
      debateLoop agents task (fuel + 1) iter prev all =
        (.ok (iter + 1, all ++ rr), log)) ∧
    (∀ (agents : AgentDict) (task : CollaborationTask)
      (init all : List AgentResponse) (log1 log2 : List QueryCall)
      (iter : Nat) (synth : String) (cscore : ℚ),
      runRound agents (fun _ => task.query)
        (fun _ => { mode := "debate", iteration := some 1,
                    total_agents := some task.agents.length })
        task.agents = (.ok init, log1) →
      debateLoop agents task (task.max_iterations - 1) 1 init init =
        (.ok (iter, all), log2) →
      synthesizeDebateResponses all task = .ok synth →
      calculateConsensusScore (lastN task.agents.length all) = .ok cscore →
      ∃ r, debateCollaboration agents task = (.ok r, log1 ++ log2) ∧
        r.total_iterations = iter ∧ r.debate_rounds = some iter) := by
  refine ⟨?_, ?_, ?_⟩
  · intro cur prev hm
    have hprev : prev ≠ [] := by
      intro h
      exact hm (by simp [h, meanContentLength])
    by_cases hcur : cur = []
    · simp [checkDebateConvergence, hcur, hprev]
    · simp [checkDebateConvergence, hcur, hprev, hm]
  · intro agents task fuel iter prev all rr log hround hconv
    simp only [debateLoop, hround, hconv]
  · intro agents task init all log1 log2 iter synth cscore h1 h2 h3 h4
    simp only [debateCollaboration, h1, h2, h3, h4]
    exact ⟨_, rfl, rfl, rfl⟩

/-- Witness for C5: two constant agents answer rounds 1 and 2 with
equal-length content, so the relative change is 0 < 10%; the loop stops
after round 2 (4 queries in total, none for round 3) and the debate result
reports 2 iterations out of `maxIterations = 3`. -/
theorem debate_convergence_and_early_stop_witness :
    checkDebateConvergence stableRound stableRound = .ok true ∧
    debateLoop coordStable.active_agents taskDeb 2 1 stableRound stableRound =
      (.ok (2, stableRound ++ stableRound), debRound2Log) ∧
    ∃ r, debateCollaboration coordStable.active_agents taskDeb =
        (.ok r, [⟨"a1", "Q", 1⟩, ⟨"a2", "Q", 1⟩] ++ debRound2Log) ∧
      r.total_iterations = 2 ∧ r.debate_rounds = some 2 := by
  have hh : ("hello" : String).length = 5 := rfl
  have hw : ("howdy" : String).length = 5 := rfl
  have hm : meanContentLength stableRound = 5 := by
    simp only [meanContentLength, stableRound, List.map_cons, List.map_nil,
      List.sum_cons, List.sum_nil, List.length_cons, List.length_nil, hh, hw]
    norm_num
  have hconv : checkDebateConvergence stableRound stableRound = .ok true := by
    rw [debate_convergence_and_early_stop.1 stableRound stableRound
      (by rw [hm]; norm_num)]
    have hP : stableRound ≠ [] ∧ stableRound ≠ [] ∧
        |meanContentLength stableRound - meanContentLength stableRound| /
          meanContentLength stableRound < 0.1 := by
      refine ⟨by simp [stableRound], by simp [stableRound], ?_⟩
      rw [hm]
      norm_num
    rw [decide_eq_true hP]
  have hround : debateRound coordStable.active_agents taskDeb 1 stableRound =
      (.ok stableRound, debRound2Log) := rfl
  have hloop := debate_convergence_and_early_stop.2.1
    coordStable.active_agents taskDeb 1 1 stableRound stableRound stableRound
    debRound2Log hround hconv
  refine ⟨hconv, hloop, ?_⟩
  have h4 : calculateConsensusScore
      (lastN taskDeb.agents.length (stableRound ++ stableRound)) = .ok 1 := by
    have hlast : lastN taskDeb.agents.length (stableRound ++ stableRound) =
        stableRound := rfl
    rw [hlast]
    simp only [calculateConsensusScore, meanContentLength, stableRound,
      List.map_cons, List.map_nil, List.sum_cons, List.sum_nil,
      List.length_cons, List.length_nil, hh, hw]
    norm_num
  exact debate_convergence_and_early_stop.2.2 coordStable.active_agents
    taskDeb stableRound (stableRound ++ stableRound)
    [⟨"a1", "Q", 1⟩, ⟨"a2", "Q", 1⟩] debRound2Log 2 debSynthW 1
    rfl hloop rfl h4

/-- C6: the consensus score of a round with at least two responses (and a
nonzero mean content length, where the source's division is defined) is
exactly max(0, 1 − variance(lengths)/mean(lengths)²) clamped to [0, 1];
when round 1 succeeds and its score exceeds 0.8 the protocol stops before
issuing any further round — the run returns with only round 1's query log,
reports `iterationsRun = 1` and `consensus_achieved = True`; and in every
successful consensus result `consensus_achieved` is exactly the test
(final consensus score > 0.8). -/
theorem consensus_score_and_early_exit :
    (∀ (rs : List AgentResponse), 2 ≤ rs.length → meanContentLength rs ≠ 0 →
      calculateConsensusScore rs =
        .ok (min (max 0 (1 -
          (((rs.map (fun r => ((r.content.length : ℚ) - meanContentLength rs) ^ 2)).sum)
              / (rs.length : ℚ)) / (meanContentLength rs) ^ 2)) 1)) ∧
    (∀ (agents : AgentDict) (task : CollaborationTask)
      (init : List AgentResponse) (log1 : List QueryCall) (s : ℚ),
      runRound agents (fun _ => task.query)
        (fun _ => { mode := "consensus", iteration := some 1,
                    goal := some "work towards consensus" })
        task.agents = (.ok init, log1) →
      calculateConsensusScore init = .ok s →
      (0.8 : ℚ) < s →
      ∃ r, consensusCollaboration agents task = (.ok r, log1) ∧
        r.total_iterations = 1 ∧ r.consensus_achieved = some true ∧
        r.consensus_score = s) ∧
    (∀ (agents : AgentDict) (task : CollaborationTask) (r : CollabResult)
      (log : List QueryCall),
      consensusCollaboration agents task = (.ok r, log) →
      r.consensus_achieved = some (decide ((0.8 : ℚ) < r.consensus_score))) := by
  refine ⟨?_, ?_, ?_⟩
  · intro rs h2 hm
    simp only [calculateConsensusScore]
    rw [if_neg (by omega : ¬rs.length < 2), if_neg hm]
  · intro agents task init log1 s h1 h2 h8
    have hloop : consensusLoop agents task (task.max_iterations - 1) 1 init init =
        (.ok (1, init, init), []) := by
      cases hf : task.max_iterations - 1 with
      | zero => rfl
      | succ fuel =>
        simp only [consensusLoop, h2]
        rw [if_pos h8]
    simp only [consensusCollaboration, h1, hloop, h2,
      synthesizeConsensusResponses, List.append_nil, decide_eq_true h8]
    exact ⟨_, rfl, rfl, rfl, rfl⟩
  · intro agents task r log h
    unfold consensusCollaboration at h
    cases h1 : runRound agents (fun _ => task.query)
        (fun _ => { mode := "consensus", iteration := some 1,
                    goal := some "work towards consensus" })
        task.agents with
    | mk res1 log1 =>
      simp only [h1] at h
      cases res1 with
      | error e => simp at h
      | ok init =>
        cases h2 : consensusLoop agents task (task.max_iterations - 1) 1 init init with
        | mk lres log2 =>
          simp only [h2] at h
          cases lres with
          | error e => simp at h
          | ok trip =>
            obtain ⟨iter, current, all⟩ := trip
            cases h3 : calculateConsensusScore current with
            | error e => simp only [h3] at h; simp at h
            | ok final =>
              simp only [h3] at h
              cases h4 : synthesizeConsensusResponses current task with
              | error e => simp only [h4] at h; simp at h
              | ok synth =>
                simp only [h4, Prod.mk.injEq, Except.ok.injEq] at h
                obtain ⟨hr, hl⟩ := h
                subst hr
                rfl

/-- Witness for C6: two equal-length round-1 responses give variance 0 and
score 1 > 0.8, so the consensus run stops after round 1 with two queries,
`iterationsRun = 1` and `consensus_achieved = True`. -/
theorem consensus_score_and_early_exit_witness :
    calculateConsensusScore stableRound = .ok 1 ∧
    ∃ r, consensusCollaboration coordStable.active_agents taskCons =
        (.ok r, [⟨"a1", "Q", 1⟩, ⟨"a2", "Q", 1⟩]) ∧
      r.total_iterations = 1 ∧ r.consensus_achieved = some true ∧
      r.consensus_score = 1 := by
  have hh : ("hello" : String).length = 5 := rfl
  have hw : ("howdy" : String).length = 5 := rfl
  have hm : meanContentLength stableRound = 5 := by
    simp only [meanContentLength, stableRound, List.map_cons, List.map_nil,
      List.sum_cons, List.sum_nil, List.length_cons, List.length_nil, hh, hw]
    norm_num
  have hscore : calculateConsensusScore stableRound = .ok 1 := by
    rw [consensus_score_and_early_exit.1 stableRound (by simp [stableRound])
      (by rw [hm]; norm_num), hm]
    simp only [stableRound, List.map_cons, List.map_nil, List.sum_cons,
      List.sum_nil, List.length_cons, List.length_nil, hh, hw]
    norm_num
  exact ⟨hscore,
    consensus_score_and_early_exit.2.1 coordStable.active_agents taskCons
      stableRound [⟨"a1", "Q", 1⟩, ⟨"a2", "Q", 1⟩] 1 rfl hscore (by norm_num)⟩

end ProjectResearch
